import Mathlib

/-! Formal model of the Arduino-Triage core: the triage decision engine
(src/linux/triage/decision_engine.py), the system state machine
(src/linux/core/state_machine.py) and the examination stop path of the
system manager (src/linux/core/system_manager.py).  Python's dynamically
typed dictionaries are modelled by the type `PyVal`; operations that can
raise in Python (attribute access on non-dicts, arithmetic or comparison
on non-numbers) return `Except String`.  Machine floats are modelled by
exact rationals. -/

/-- Model of a dynamically typed Python value as it flows through the
triage code: `None`, booleans, numbers (int and float, as exact
rationals), strings, and string-keyed dicts (as insertion-ordered
association lists). -/
inductive PyVal : Type where
  | none : PyVal
  | bool : Bool → PyVal
  | num : ℚ → PyVal
  | str : String → PyVal
  | dict : List (String × PyVal) → PyVal

/-- Lookup of a key in an association list (Python dict access order:
first binding wins; `setAssoc` keeps keys unique). -/
def lookupVal : List (String × PyVal) → String → Option PyVal
  | [], _ => Option.none
  | (k, v) :: rest, key => if k = key then some v else lookupVal rest key

/-- Python truthiness: `None`, `False`, `0`, `""` and `{}` are falsy. -/
def pyTruthy : PyVal → Bool
  | .none => false
  | .bool b => b
  | .num q => if q = 0 then false else true
  | .str s => if s = "" then false else true
  | .dict entries => if entries.isEmpty then false else true

/-- Python `value.get(key, default)`: defined on dicts, raises
`AttributeError` on any other value. -/
def pyGetD : PyVal → String → PyVal → Except String PyVal
  | .dict entries, key, dflt => .ok ((lookupVal entries key).getD dflt)
  | _, _, _ => .error "AttributeError"

/-- Numeric view of a Python value: `bool` is an `int` subclass in
Python, so `True`/`False` act as `1`/`0` in arithmetic. -/
def pyToNum : PyVal → Option ℚ
  | .bool b => some (if b then 1 else 0)
  | .num q => some q
  | _ => Option.none

/-- Python `value < q` against a numeric literal: `TypeError` unless the
value is numeric. -/
def pyLtQ (v : PyVal) (q : ℚ) : Except String Bool :=
  match pyToNum v with
  | some p => .ok (decide (p < q))
  | Option.none => .error "TypeError"

/-- Python `value > q` against a numeric literal. -/
def pyGtQ (v : PyVal) (q : ℚ) : Except String Bool :=
  match pyToNum v with
  | some p => .ok (decide (q < p))
  | Option.none => .error "TypeError"

/-- Python `value >= q` against a numeric literal. -/
def pyGeQ (v : PyVal) (q : ℚ) : Except String Bool :=
  match pyToNum v with
  | some p => .ok (decide (q ≤ p))
  | Option.none => .error "TypeError"

/-- Python `q * value` with a float literal on the left: `TypeError`
unless the value is numeric. -/
def pyMulQ (q : ℚ) (v : PyVal) : Except String ℚ :=
  match pyToNum v with
  | some p => .ok (q * p)
  | Option.none => .error "TypeError"

/-- Python `value != s` against a string literal: values of other types
compare unequal, never raise. -/
def pyNeStr (v : PyVal) (s : String) : Bool :=
  match v with
  | .str t => if t = s then false else true
  | _ => true

/-- Python `value == s` against a string literal. -/
def pyEqStr (v : PyVal) (s : String) : Bool :=
  match v with
  | .str t => if t = s then true else false
  | _ => false

/-- Round a rational to the nearest integer, ties to even (the rounding
CPython's fixed-point float formatting applies). -/
def roundHalfEven (q : ℚ) : ℤ :=
  let f := Rat.floor q
  let r := q - (f : ℚ)
  if r < 1/2 then f
  else if (1 : ℚ)/2 < r then f + 1
  else if f % 2 = 0 then f else f + 1

/-- Decimal digits of a natural number, zero-padded on the left to at
least `numDigits` digits. -/
def natPad (numDigits : Nat) (n : Nat) : String :=
  let s := toString n
  if s.length < numDigits then String.mk (List.replicate (numDigits - s.length) '0') ++ s
  else s

/-- Python `f"{q:.<prec>f}"` fixed-point formatting of a number. -/
def formatFixed (prec : Nat) (q : ℚ) : String :=
  let scaled := roundHalfEven (q * (10 : ℚ) ^ prec)
  let sign := if scaled < 0 then "-" else ""
  let s := natPad (prec + 1) scaled.natAbs
  sign ++ s.dropRight prec ++ "." ++ s.takeRight prec

/-- Fixed-point formatting of a Python value: `TypeError` unless
numeric (mirrors Python format specs `.1f` and `.2f`). -/
def pyFormatFixed (prec : Nat) (v : PyVal) : Except String String :=
  match pyToNum v with
  | some q => .ok (formatFixed prec q)
  | Option.none => .error "TypeError"

/-- Whether the second list is a prefix of the first. -/
def startsWithList : List Char → List Char → Bool
  | _, [] => true
  | [], _ :: _ => false
  | c :: cs, d :: ds => if c = d then startsWithList cs ds else false

/-- Whether `sub` occurs contiguously inside the second list. -/
def containsSubList (sub : List Char) : List Char → Bool
  | [] => startsWithList [] sub
  | c :: cs => startsWithList (c :: cs) sub || containsSubList sub cs

/-- Python `sub in s` substring test on strings. -/
def strContains (s sub : String) : Bool :=
  containsSubList sub.toList s.toList

/-- Python `str.lower()` (character-wise lowering; the engine only
scans ASCII keywords). -/
def strToLower (s : String) : String := String.mk (s.toList.map Char.toLower)

/-- Python `str(value)` as used inside the engine's message strings
(only reachable with string labels in practice; non-string renderings
are an approximation and are never inspected by any claim). -/
def pyStr : PyVal → String
  | .none => "None"
  | .bool b => if b then "True" else "False"
  | .num q => if q.den = 1 then toString q.num else formatFixed 2 q
  | .str s => s
  | .dict _ => "dict"

/-! # Triage decision engine (src/linux/triage/decision_engine.py) -/

/-- Configuration of `TriageDecisionEngine.__init__`: the six risk
thresholds and the three fusion weights. -/
structure TriageDecisionEngine where
  ml_confidence : ℚ
  temperature_fever : ℚ
  heart_rate_high : ℚ
  heart_rate_low : ℚ
  respiratory_rate_high : ℚ
  respiratory_rate_low : ℚ
  ml_prediction : ℚ
  audio_analysis : ℚ
  vital_signs : ℚ

/-- The default thresholds and fusion weights installed by
`TriageDecisionEngine.__init__` when no overrides are given. -/
def defaultEngine : TriageDecisionEngine :=
  { ml_confidence := 7/10
    temperature_fever := 38
    heart_rate_high := 100
    heart_rate_low := 50
    respiratory_rate_high := 25
    respiratory_rate_low := 10
    ml_prediction := 1/2
    audio_analysis := 3/10
    vital_signs := 1/5 }

/-- Result shape of the three `_analyze_*` helpers: a component risk
score plus risk-factor and recommendation strings. -/
structure RiskAnalysis where
  score : ℚ
  factors : List String
  recommendations : List String

/-- `TriageDecisionEngine._analyze_heart_prediction`. -/
def _analyze_heart_prediction (e : TriageDecisionEngine) (heart_result : PyVal) :
    Except String RiskAnalysis :=
  match pyGetD heart_result "predicted_class" (.str "Normal") with
  | .error msg => .error msg
  | .ok predicted_class =>
    match pyGetD heart_result "confidence" (.num 0) with
    | .error msg => .error msg
    | .ok confidence =>
      if pyNeStr predicted_class "Normal" then
        match pyMulQ (8/10) confidence with
        | .error msg => .error msg
        | .ok risk_score =>
          .ok { score := risk_score
                factors := ["Abnormal heart sound detected"]
                recommendations :=
                  ["Cardiac evaluation by physician recommended",
                   "Consider ECG and echocardiography",
                   "Monitor for symptoms: chest pain, palpitations, shortness of breath"] }
      else
        match pyLtQ confidence e.ml_confidence with
        | .error msg => .error msg
        | .ok lowConf =>
          if lowConf then
            match pyFormatFixed 2 confidence with
            | .error msg => .error msg
            | .ok c =>
              .ok { score := 3/10
                    factors := ["Low confidence in normal classification (" ++ c ++ ")"]
                    recommendations := [] }
          else
            .ok { score := 1/10, factors := [], recommendations := [] }

/-- `TriageDecisionEngine._analyze_lung_prediction`. -/
def _analyze_lung_prediction (e : TriageDecisionEngine) (lung_result : PyVal) :
    Except String RiskAnalysis :=
  match pyGetD lung_result "predicted_class" (.str "Normal") with
  | .error msg => .error msg
  | .ok predicted_class =>
    match pyGetD lung_result "confidence" (.num 0) with
    | .error msg => .error msg
    | .ok confidence =>
      if pyNeStr predicted_class "Normal" then
        match pyMulQ (7/10) confidence with
        | .error msg => .error msg
        | .ok base_score =>
          let abnormal := "Abnormal lung sound detected: " ++ pyStr predicted_class
          if pyEqStr predicted_class "Wheeze" then
            .ok { score := base_score
                  factors := [abnormal]
                  recommendations :=
                    ["Possible asthma or bronchospasm",
                     "Consider bronchodilator therapy",
                     "Pulmonary function testing if persistent"] }
          else if pyEqStr predicted_class "Crackle" then
            .ok { score := base_score
                  factors := [abnormal]
                  recommendations :=
                    ["Possible pneumonia or pulmonary edema",
                     "Chest X-ray recommended",
                     "Monitor for fever and respiratory distress"] }
          else if pyEqStr predicted_class "Both" then
            match pyMulQ (9/10) confidence with
            | .error msg => .error msg
            | .ok both_score =>
              .ok { score := both_score
                    factors := [abnormal]
                    recommendations :=
                      ["Multiple abnormalities detected",
                       "Urgent pulmonary evaluation recommended"] }
          else
            .ok { score := base_score, factors := [abnormal], recommendations := [] }
      else
        match pyLtQ confidence e.ml_confidence with
        | .error msg => .error msg
        | .ok lowConf =>
          if lowConf then
            match pyFormatFixed 2 confidence with
            | .error msg => .error msg
            | .ok c =>
              .ok { score := 3/10
                    factors := ["Low confidence in normal classification (" ++ c ++ ")"]
                    recommendations := [] }
          else
            .ok { score := 1/10, factors := [], recommendations := [] }

/-- `TriageDecisionEngine._analyze_vital_signs`: temperature adds to the
score; movement and distance only add qualitative strings. -/
def _analyze_vital_signs (e : TriageDecisionEngine) (sensor_data : PyVal) :
    Except String RiskAnalysis :=
  match pyGetD sensor_data "temperature" (.dict []) with
  | .error msg => .error msg
  | .ok temp_data =>
    match pyGetD temp_data "valid" .none with
    | .error msg => .error msg
    | .ok tvalid =>
      let tempPart : Except String (ℚ × List String × List String) :=
        if pyTruthy tvalid then
          match pyGetD temp_data "celsius" (.num 0) with
          | .error msg => .error msg
          | .ok temp_celsius =>
            match pyGeQ temp_celsius e.temperature_fever with
            | .error msg => .error msg
            | .ok fever =>
              if fever then
                match pyFormatFixed 1 temp_celsius with
                | .error msg => .error msg
                | .ok t =>
                  .ok (3/10, ["Fever detected: " ++ t ++ "°C"],
                       ["Fever management and infection workup"])
              else
                match pyLtQ temp_celsius 35 with
                | .error msg => .error msg
                | .ok hypo =>
                  if hypo then
                    match pyFormatFixed 1 temp_celsius with
                    | .error msg => .error msg
                    | .ok t =>
                      .ok (2/10, ["Hypothermia detected: " ++ t ++ "°C"],
                           ["Warming measures and evaluation"])
                  else .ok (0, [], [])
        else .ok (0, [], [])
      match tempPart with
      | .error msg => .error msg
      | .ok tp =>
        match pyGetD sensor_data "movement" (.dict []) with
        | .error msg => .error msg
        | .ok movement_data =>
          match pyGetD movement_data "detected" .none with
          | .error msg => .error msg
          | .ok detected =>
            let movPart : List String × List String :=
              if pyTruthy detected then
                (["Patient movement detected during examination"],
                 ["Repeat examination when patient is stable"])
              else ([], [])
            match pyGetD sensor_data "distance" (.dict []) with
            | .error msg => .error msg
            | .ok distance_data =>
              match pyGetD distance_data "in_range" .none with
              | .error msg => .error msg
              | .ok in_range =>
                let distPart : List String × List String :=
                  if pyTruthy in_range then ([], [])
                  else
                    (["Suboptimal stethoscope placement"],
                     ["Ensure proper contact for accurate assessment"])
                .ok { score := tp.1
                      factors := tp.2.1 ++ movPart.1 ++ distPart.1
                      recommendations := tp.2.2 ++ movPart.2 ++ distPart.2 }

/-- `TriageDecisionEngine._calculate_overall_risk`: weighted average of
the present component scores, each weighted by the fusion weight chosen
from its name (`"ml"` substring, then `"vital"` substring, else audio),
normalized by the sum of the weights actually used. -/
def _calculate_overall_risk (e : TriageDecisionEngine)
    (risk_scores : List (String × ℚ)) : ℚ :=
  if risk_scores.isEmpty then 0
  else
    let acc := risk_scores.foldl
      (fun acc p =>
        let weight :=
          if strContains p.1 "ml" then e.ml_prediction
          else if strContains p.1 "vital" then e.vital_signs
          else e.audio_analysis
        (acc.1 + p.2 * weight, acc.2 + weight))
      ((0 : ℚ), (0 : ℚ))
    if acc.2 = 0 then 0 else acc.1 / acc.2

/-- `TriageDecisionEngine._determine_risk_level`. -/
def _determine_risk_level (risk_score : ℚ) : String :=
  if risk_score ≥ 7/10 then "HIGH"
  else if risk_score ≥ 4/10 then "MEDIUM"
  else "LOW"

/-- The urgent keywords scanned by `_determine_urgency`. -/
def urgent_keywords : List String := ["fever", "both", "multiple", "urgent"]

/-- `TriageDecisionEngine._determine_urgency`. -/
def _determine_urgency (risk_level : String) (risk_factors : List String) : String :=
  if risk_level = "HIGH" then "URGENT"
  else if risk_level = "MEDIUM" then
    if risk_factors.any (fun factor =>
        urgent_keywords.any (fun keyword => strContains (strToLower factor) keyword)) then
      "URGENT"
    else "ROUTINE"
  else "NON-URGENT"

/-- `TriageDecisionEngine._calculate_decision_confidence`: agreement
measure `1 - min(std/mean + 0.1, 1)` over the component scores,
using the population standard deviation as `numpy.std` does. -/
noncomputable def _calculate_decision_confidence
    (risk_scores : List (String × ℚ)) : ℝ :=
  if risk_scores.isEmpty then 0
  else
    let scores := risk_scores.map (fun p => (p.2 : ℝ))
    let n : ℝ := scores.length
    let mean_score := scores.sum / n
    let std_score := Real.sqrt ((scores.map (fun x => (x - mean_score) ^ 2)).sum / n)
    1 - min (std_score / (mean_score + 1/10)) 1

/-- `TriageDecisionEngine._generate_explanation`: headline, first five
risk factors, then the per-component score breakdown. -/
def _generate_explanation (risk_level : String)
    (risk_scores : List (String × ℚ)) (risk_factors : List String) : String :=
  let headline :=
    if risk_level = "HIGH" then "HIGH RISK: Significant abnormalities detected."
    else if risk_level = "MEDIUM" then "MEDIUM RISK: Some abnormalities detected."
    else "LOW RISK: No significant abnormalities detected."
  let factorParts :=
    if risk_factors.isEmpty then []
    else "\nKey findings:" :: (risk_factors.take 5).map (fun factor => "  • " ++ factor)
  let scoreParts :=
    if risk_scores.isEmpty then []
    else "\nRisk assessment:" ::
      risk_scores.map (fun p => "  • " ++ p.1 ++ ": " ++ formatFixed 2 p.2)
  String.intercalate "\n" (headline :: (factorParts ++ scoreParts))

/-- The decision dictionary built on the success path of
`TriageDecisionEngine.make_decision`. -/
structure Decision where
  timestamp : String
  risk_level : String
  risk_score : ℚ
  risk_scores_breakdown : List (String × ℚ)
  risk_factors : List String
  recommendations : List String
  explanation : String
  requires_referral : Bool
  urgency : String
  confidence : ℝ

/-- The fallback dictionary returned by `make_decision` when an
exception escapes the decision computation. -/
structure ErrorDecision where
  error : String
  risk_level : String
  requires_referral : Bool
deriving DecidableEq

/-- The `if heart_result and heart_result.get('success')` block of
`make_decision`: runs the heart analysis only when a truthy heart
result with a truthy success flag is present. -/
def heartComponent (e : TriageDecisionEngine) (heart_result : Option PyVal) :
    Except String (Option RiskAnalysis) :=
  match heart_result with
  | some hv =>
    if pyTruthy hv then
      match pyGetD hv "success" .none with
      | .error msg => .error msg
      | .ok s =>
        if pyTruthy s then
          match _analyze_heart_prediction e hv with
          | .error msg => .error msg
          | .ok r => .ok (some r)
        else .ok Option.none
    else .ok Option.none
  | Option.none => .ok Option.none

/-- The `if lung_result and lung_result.get('success')` block of
`make_decision`. -/
def lungComponent (e : TriageDecisionEngine) (lung_result : Option PyVal) :
    Except String (Option RiskAnalysis) :=
  match lung_result with
  | some lv =>
    if pyTruthy lv then
      match pyGetD lv "success" .none with
      | .error msg => .error msg
      | .ok s =>
        if pyTruthy s then
          match _analyze_lung_prediction e lv with
          | .error msg => .error msg
          | .ok r => .ok (some r)
        else .ok Option.none
    else .ok Option.none
  | Option.none => .ok Option.none

/-- The `if sensor_data:` block of `make_decision`: runs the vital-sign
analysis only when a truthy sensor snapshot is present. -/
def vitalComponent (e : TriageDecisionEngine) (sensor_data : Option PyVal) :
    Except String (Option RiskAnalysis) :=
  match sensor_data with
  | some sv =>
    if pyTruthy sv then
      match _analyze_vital_signs e sv with
      | .error msg => .error msg
      | .ok r => .ok (some r)
    else .ok Option.none
  | Option.none => .ok Option.none

/-- The component scores registered by an optional analysis under the
given key (Python `risk_scores[key] = ...`, in insertion order). -/
def scoreEntry (key : String) : Option RiskAnalysis → List (String × ℚ)
  | some r => [(key, r.score)]
  | Option.none => []

/-- The risk factors contributed by an optional analysis. -/
def factorsOf : Option RiskAnalysis → List String
  | some r => r.factors
  | Option.none => []

/-- The recommendations contributed by an optional analysis. -/
def recommendationsOf : Option RiskAnalysis → List String
  | some r => r.recommendations
  | Option.none => []

/-- The body of the `try:` block of `make_decision`: the value it
returns, or the exception that escapes it.  `now` is the string
`datetime.now().isoformat()` evaluates to at the moment of the call;
`examination_data` is accepted but, as in the source, never read. -/
noncomputable def computeDecision (e : TriageDecisionEngine)
    (heart_result lung_result sensor_data examination_data : Option PyVal)
    (now : String) : Except String Decision :=
  match heartComponent e heart_result with
  | .error msg => .error msg
  | .ok heartPart =>
    match lungComponent e lung_result with
    | .error msg => .error msg
    | .ok lungPart =>
      match vitalComponent e sensor_data with
      | .error msg => .error msg
      | .ok vitalPart =>
        let risk_scores :=
          scoreEntry "heart_ml" heartPart ++ scoreEntry "lung_ml" lungPart ++
            scoreEntry "vital_signs" vitalPart
        let risk_factors :=
          factorsOf heartPart ++ factorsOf lungPart ++ factorsOf vitalPart
        let recommendations :=
          recommendationsOf heartPart ++ recommendationsOf lungPart ++
            recommendationsOf vitalPart
        let overall_risk_score := _calculate_overall_risk e risk_scores
        let risk_level := _determine_risk_level overall_risk_score
        .ok { timestamp := now
              risk_level := risk_level
              risk_score := overall_risk_score
              risk_scores_breakdown := risk_scores
              risk_factors := risk_factors
              recommendations := recommendations
              explanation := _generate_explanation risk_level risk_scores risk_factors
              requires_referral := ["MEDIUM", "HIGH"].contains risk_level
              urgency := _determine_urgency risk_level risk_factors
              confidence := _calculate_decision_confidence risk_scores }

/-- `TriageDecisionEngine.make_decision`: the try/except wrapper around
`computeDecision`; an escaping exception is converted into the
UNKNOWN/referral fallback dictionary. -/
noncomputable def make_decision (e : TriageDecisionEngine)
    (heart_result lung_result sensor_data examination_data : Option PyVal)
    (now : String) : Decision ⊕ ErrorDecision :=
  match computeDecision e heart_result lung_result sensor_data examination_data now with
  | .ok d => .inl d
  | .error msg =>
    .inr { error := msg, risk_level := "UNKNOWN", requires_referral := true }

/-- The `risk_level` field of a `make_decision` outcome (present on
both the success and the fallback dictionary). -/
def decisionRiskLevel : Decision ⊕ ErrorDecision → String
  | .inl d => d.risk_level
  | .inr d => d.risk_level

/-- The `requires_referral` field of a `make_decision` outcome. -/
def decisionRequiresReferral : Decision ⊕ ErrorDecision → Bool
  | .inl d => d.requires_referral
  | .inr d => d.requires_referral

/-- The `risk_score` field of a `make_decision` outcome (absent from
the fallback dictionary). -/
def decisionRiskScore : Decision ⊕ ErrorDecision → Option ℚ
  | .inl d => some d.risk_score
  | .inr _ => Option.none

/-- The `risk_scores_breakdown` field of a `make_decision` outcome. -/
def decisionBreakdown : Decision ⊕ ErrorDecision → Option (List (String × ℚ))
  | .inl d => some d.risk_scores_breakdown
  | .inr _ => Option.none

/-- The `urgency` field of a `make_decision` outcome. -/
def decisionUrgency : Decision ⊕ ErrorDecision → Option String
  | .inl d => some d.urgency
  | .inr _ => Option.none

/-- The `timestamp` field of a `make_decision` outcome. -/
def decisionTimestamp : Decision ⊕ ErrorDecision → Option String
  | .inl d => some d.timestamp
  | .inr _ => Option.none

/-! # System state machine (src/linux/core/state_machine.py) -/

/-- `SystemState`: the nine operational states of the triage station. -/
inductive SystemState : Type where
  | INITIALIZING : SystemState
  | IDLE : SystemState
  | CALIBRATING : SystemState
  | EXAMINING : SystemState
  | PROCESSING : SystemState
  | SHOWING_RESULTS : SystemState
  | ERROR : SystemState
  | MAINTENANCE : SystemState
  | SHUTDOWN : SystemState
deriving DecidableEq

/-- `SystemState.is_operational`. -/
def SystemState.is_operational (s : SystemState) : Bool :=
  [SystemState.IDLE, SystemState.EXAMINING, SystemState.PROCESSING,
   SystemState.SHOWING_RESULTS].contains s

/-- `SystemState.is_busy`. -/
def SystemState.is_busy (s : SystemState) : Bool :=
  [SystemState.INITIALIZING, SystemState.CALIBRATING, SystemState.EXAMINING,
   SystemState.PROCESSING, SystemState.MAINTENANCE, SystemState.SHUTDOWN].contains s

/-- The three guard functions that `_setup_transitions` attaches to
specific edges, named so transitions can be compared as data. -/
inductive TransCondition : Type where
  | can_start_examination : TransCondition
  | processing_complete : TransCondition
  | error_resolved : TransCondition
deriving DecidableEq

/-- The four action hooks that `_setup_transitions` attaches to
specific edges. -/
inductive TransAction : Type where
  | on_examination_start : TransAction
  | on_results_ready : TransAction
  | on_return_to_idle : TransAction
  | on_error_recovery : TransAction
deriving DecidableEq

/-- `StateTransition`: a declared edge with its optional guard, action
and timeout. -/
structure StateTransition where
  from_state : SystemState
  to_state : SystemState
  condition : Option TransCondition
  action : Option TransAction
  timeout : Option ℚ
deriving DecidableEq

/-- The `valid_transitions` pair list of `_setup_transitions`, in
source order (including the duplicated `*→SHUTDOWN` pairs of the
trailing block). -/
def valid_transitions : List (SystemState × SystemState) :=
  [(.INITIALIZING, .IDLE),
   (.INITIALIZING, .ERROR),
   (.IDLE, .CALIBRATING),
   (.IDLE, .EXAMINING),
   (.IDLE, .MAINTENANCE),
   (.IDLE, .ERROR),
   (.IDLE, .SHUTDOWN),
   (.CALIBRATING, .IDLE),
   (.CALIBRATING, .ERROR),
   (.EXAMINING, .PROCESSING),
   (.EXAMINING, .IDLE),
   (.EXAMINING, .ERROR),
   (.PROCESSING, .SHOWING_RESULTS),
   (.PROCESSING, .ERROR),
   (.SHOWING_RESULTS, .IDLE),
   (.SHOWING_RESULTS, .ERROR),
   (.ERROR, .IDLE),
   (.ERROR, .MAINTENANCE),
   (.ERROR, .SHUTDOWN),
   (.MAINTENANCE, .IDLE),
   (.MAINTENANCE, .ERROR),
   (.MAINTENANCE, .SHUTDOWN),
   (.INITIALIZING, .SHUTDOWN),
   (.IDLE, .SHUTDOWN),
   (.CALIBRATING, .SHUTDOWN),
   (.EXAMINING, .SHUTDOWN),
   (.PROCESSING, .SHUTDOWN),
   (.SHOWING_RESULTS, .SHUTDOWN),
   (.ERROR, .SHUTDOWN),
   (.MAINTENANCE, .SHUTDOWN)]

/-- The condition/action/timeout assignment of `_setup_transitions`
(the if/elif chain over the edge being created). -/
def transitionParams (f t : SystemState) :
    Option TransCondition × Option TransAction × Option ℚ :=
  if f = .IDLE ∧ t = .EXAMINING then
    (some .can_start_examination, some .on_examination_start, Option.none)
  else if f = .PROCESSING ∧ t = .SHOWING_RESULTS then
    (some .processing_complete, some .on_results_ready, Option.none)
  else if f = .SHOWING_RESULTS ∧ t = .IDLE then
    (Option.none, some .on_return_to_idle, some 10)
  else if f = .ERROR ∧ t = .IDLE then
    (some .error_resolved, some .on_error_recovery, Option.none)
  else (Option.none, Option.none, Option.none)

/-- The full transition table built by `_setup_transitions`. -/
def allTransitions : List StateTransition :=
  valid_transitions.map (fun p =>
    let params := transitionParams p.1 p.2
    { from_state := p.1, to_state := p.2,
      condition := params.1, action := params.2.1, timeout := params.2.2 })

/-- `self.transitions[from_state]`: the per-state transition list, in
the append order of `_setup_transitions`. -/
def transitionsFor (f : SystemState) : List StateTransition :=
  allTransitions.filter (fun t => t.from_state = f)

/-- One record of `self.state_history`: transition records carry a
context and `forced = false`; forced records carry `forced = true` and
a reason. -/
structure HistRecord where
  from_state : SystemState
  to_state : SystemState
  timestamp : ℚ
  context : Option PyVal
  forced : Bool
  reason : Option String

/-- The mutable fields of `SystemStateMachine` (the shared data store
is the string-keyed `state_data` dict).  Registered enter/exit
callbacks are external collaborators; their invocation is recorded as
trace events rather than modelled by effect. -/
structure SystemStateMachine where
  current_state : SystemState
  previous_state : Option SystemState
  state_data : List (String × PyVal)
  state_history : List HistRecord
  state_enter_time : ℚ

/-- The freshly constructed machine of `SystemStateMachine.__init__`
(started at clock value `t0`). -/
def initialMachine (t0 : ℚ) : SystemStateMachine :=
  { current_state := .INITIALIZING
    previous_state := Option.none
    state_data := []
    state_history := []
    state_enter_time := t0 }

/-- Observable side effects of a state-machine call that reach outside
the machine itself: invoking the registered exit or enter callback list
of a state, or running an edge's action hook. -/
inductive MachineEvent : Type where
  | exit_callbacks : SystemState → MachineEvent
  | enter_callbacks : SystemState → MachineEvent
  | ran_action : TransAction → MachineEvent
deriving DecidableEq

/-- Update of a key in the shared store, preserving Python dict
insertion order (`SystemStateMachine.set_data`). -/
def setAssoc (l : List (String × PyVal)) (key : String) (v : PyVal) :
    List (String × PyVal) :=
  match l with
  | [] => [(key, v)]
  | (k, w) :: rest => if k = key then (key, v) :: rest else (k, w) :: setAssoc rest key v

/-- Removal of a key from the shared store
(`SystemStateMachine.clear_data` with a specific key). -/
def clearAssoc (l : List (String × PyVal)) (key : String) :
    List (String × PyVal) :=
  match l with
  | [] => []
  | (k, w) :: rest => if k = key then rest else (k, w) :: clearAssoc rest key

/-- `SystemStateMachine.get_data`. -/
def get_data (m : SystemStateMachine) (key : String) (dflt : PyVal) : PyVal :=
  (lookupVal m.state_data key).getD dflt

/-- `SystemStateMachine.set_data`. -/
def set_data (m : SystemStateMachine) (key : String) (v : PyVal) :
    SystemStateMachine :=
  { m with state_data := setAssoc m.state_data key v }

/-- `SystemStateMachine.clear_data` for a specific key. -/
def clear_data (m : SystemStateMachine) (key : String) : SystemStateMachine :=
  { m with state_data := clearAssoc m.state_data key }

/-- `SystemStateMachine._can_start_examination`: needs a truthy
`distance.valid`, a falsy `movement.detected` (missing defaults to
`True` for safety), and a knob mode in `0..2` (missing defaults to
`-1`).  A raised exception (e.g. attribute access on a non-dict) is an
`Except.error` and is treated as a failed guard by `can_transition`. -/
def _can_start_examination (m : SystemStateMachine) : Except String Bool :=
  let sensor_data := get_data m "latest_sensor_data" (.dict [])
  match pyGetD sensor_data "distance" (.dict []) with
  | .error msg => .error msg
  | .ok distance_data =>
    match pyGetD distance_data "valid" (.bool false) with
    | .error msg => .error msg
    | .ok dvalid =>
      if !pyTruthy dvalid then .ok false
      else
        match pyGetD sensor_data "movement" (.dict []) with
        | .error msg => .error msg
        | .ok movement_data =>
          match pyGetD movement_data "detected" (.bool true) with
          | .error msg => .error msg
          | .ok detected =>
            if pyTruthy detected then .ok false
            else
              match pyGetD sensor_data "knob" (.dict []) with
              | .error msg => .error msg
              | .ok knob_data =>
                match pyGetD knob_data "mode" (.num (-1)) with
                | .error msg => .error msg
                | .ok mode =>
                  match pyLtQ mode 0 with
                  | .error msg => .error msg
                  | .ok lt0 =>
                    if lt0 then .ok false
                    else
                      match pyGtQ mode 2 with
                      | .error msg => .error msg
                      | .ok gt2 =>
                        if gt2 then .ok false else .ok true

/-- `SystemStateMachine._processing_complete`: truthiness of the
`processing_complete` flag. -/
def _processing_complete (m : SystemStateMachine) : Except String Bool :=
  .ok (pyTruthy (get_data m "processing_complete" (.bool false)))

/-- `SystemStateMachine._error_resolved`. -/
def _error_resolved (m : SystemStateMachine) : Except String Bool :=
  .ok (pyTruthy (get_data m "error_resolved" (.bool false)))

/-- Dispatch of a named guard to its implementation (the guards ignore
their `context` argument and read the shared store instead). -/
def evalCondition : TransCondition → SystemStateMachine → Except String Bool
  | .can_start_examination, m => _can_start_examination m
  | .processing_complete, m => _processing_complete m
  | .error_resolved, m => _error_resolved m

/-- `StateTransition.can_transition`: no condition means allowed; a
raising condition is caught and treated as `False`. -/
def can_transition (t : StateTransition) (m : SystemStateMachine) : Bool :=
  match t.condition with
  | Option.none => true
  | some c =>
    match evalCondition c m with
    | .ok b => b
    | .error _ => false

/-- `SystemStateMachine._on_examination_start`. -/
def _on_examination_start (m : SystemStateMachine) (now : ℚ) : SystemStateMachine :=
  clear_data (clear_data (set_data m "examination_start_time" (.num now))
    "processing_complete") "examination_results"

/-- `SystemStateMachine._on_results_ready`. -/
def _on_results_ready (m : SystemStateMachine) (now : ℚ) : SystemStateMachine :=
  set_data m "results_display_time" (.num now)

/-- `SystemStateMachine._on_return_to_idle`. -/
def _on_return_to_idle (m : SystemStateMachine) : SystemStateMachine :=
  clear_data (clear_data (clear_data m "examination_start_time")
    "results_display_time") "processing_complete"

/-- `SystemStateMachine._on_error_recovery`. -/
def _on_error_recovery (m : SystemStateMachine) : SystemStateMachine :=
  clear_data (clear_data m "error_resolved") "error_message"

/-- Dispatch of a named action hook (`now` is `time.time()` at the
moment the hook runs). -/
def runAction : TransAction → SystemStateMachine → ℚ → SystemStateMachine
  | .on_examination_start, m, now => _on_examination_start m now
  | .on_results_ready, m, now => _on_results_ready m now
  | .on_return_to_idle, m, _ => _on_return_to_idle m
  | .on_error_recovery, m, _ => _on_error_recovery m

/-- `SystemStateMachine._is_valid_transition`. -/
def _is_valid_transition (f t : SystemState) : Bool :=
  (transitionsFor f).any (fun tr => tr.to_state = t)

/-- `SystemStateMachine._find_transition`. -/
def _find_transition (f t : SystemState) : Option StateTransition :=
  (transitionsFor f).find? (fun tr => tr.to_state = t)

/-- `SystemStateMachine.transition_to` at clock value `now`: returns
the success flag, the machine after the call, and the trace of
callback/action invocations. -/
def transition_to (m : SystemStateMachine) (new_state : SystemState)
    (context : Option PyVal) (now : ℚ) :
    Bool × SystemStateMachine × List MachineEvent :=
  if !_is_valid_transition m.current_state new_state then (false, m, [])
  else
    match _find_transition m.current_state new_state with
    | Option.none => (false, m, [])
    | some tr =>
      if !can_transition tr m then (false, m, [])
      else
        let oldState := m.current_state
        let m1 : SystemStateMachine :=
          { m with state_history := m.state_history ++
              [{ from_state := oldState, to_state := new_state, timestamp := now,
                 context := context, forced := false, reason := Option.none }] }
        let m2 : SystemStateMachine :=
          { m1 with previous_state := some oldState, current_state := new_state,
                    state_enter_time := now }
        let m3 := match tr.action with
          | some a => runAction a m2 now
          | Option.none => m2
        let actionEvents := match tr.action with
          | some a => [MachineEvent.ran_action a]
          | Option.none => []
        (true, m3,
          MachineEvent.exit_callbacks oldState ::
            (actionEvents ++ [MachineEvent.enter_callbacks new_state]))

/-- `SystemStateMachine.process` at clock value `now`: fires the first
declared timeout edge of the current state whose timeout is truthy and
elapsed and whose guard holds, via `transition_to`; at most one edge
fires per call (the loop breaks after the first). -/
def process (m : SystemStateMachine) (now : ℚ) :
    SystemStateMachine × List MachineEvent :=
  let time_in_state := now - m.state_enter_time
  match (transitionsFor m.current_state).find? (fun tr =>
      match tr.timeout with
      | some tmo => if tmo = 0 then false
          else decide (time_in_state ≥ tmo) && can_transition tr m
      | Option.none => false) with
  | some tr =>
    let r := transition_to m tr.to_state Option.none now
    (r.2.1, r.2.2)
  | Option.none => (m, [])

/-- `SystemStateMachine.force_state`: bypasses the graph, records a
forced history entry, swaps states and resets the clock; runs no
callbacks and no action and leaves the shared store untouched. -/
def force_state (m : SystemStateMachine) (new_state : SystemState)
    (reason : String) (now : ℚ) : SystemStateMachine × List MachineEvent :=
  ({ current_state := new_state
     previous_state := some m.current_state
     state_data := m.state_data
     state_history := m.state_history ++
       [{ from_state := m.current_state, to_state := new_state, timestamp := now,
          context := Option.none, forced := true, reason := some reason }]
     state_enter_time := now }, [])

/-! # System manager stop path (src/linux/core/system_manager.py) -/

/-- Result dictionary of `SystemManager.stop_examination`. -/
structure StopResult where
  success : Bool
deriving DecidableEq

/-- `SystemManager.stop_examination`, restricted to its effect on the
state machine: the audio-capture stop and the MCU stop command are
external hardware calls that do not touch the machine (modelled as
non-failing here), then `transition_to(IDLE)` is invoked with its
return value ignored, and `{'success': True}` is returned. -/
def stop_examination (m : SystemStateMachine) (now : ℚ) :
    StopResult × SystemStateMachine × List MachineEvent :=
  let r := transition_to m SystemState.IDLE Option.none now
  ({ success := true }, r.2.1, r.2.2)

/-! # Concrete inputs and evaluation lemmas -/

/-- Scenario A heart classifier result: successful, label `Abnormal`,
confidence 0.9. -/
def heartA : PyVal :=
  .dict [("success", .bool true), ("predicted_class", .str "Abnormal"),
         ("confidence", .num (9/10))]

/-- Scenario A sensor snapshot: valid temperature 37 °C, no movement,
distance in range. -/
def sensorA : PyVal :=
  .dict [("temperature", .dict [("valid", .bool true), ("celsius", .num 37)]),
         ("movement", .dict [("detected", .bool false)]),
         ("distance", .dict [("in_range", .bool true)])]

/-- A heart result whose confidence is a string: `0.8 * confidence`
raises `TypeError` inside the decision computation. -/
def heartBad : PyVal :=
  .dict [("success", .bool true), ("predicted_class", .str "Abnormal"),
         ("confidence", .str "high")]

/-- Heart analysis of `heartA`: abnormal branch, score 0.8 × 0.9. -/
theorem heartA_eval : _analyze_heart_prediction defaultEngine heartA =
    .ok { score := 18/25
          factors := ["Abnormal heart sound detected"]
          recommendations :=
            ["Cardiac evaluation by physician recommended",
             "Consider ECG and echocardiography",
             "Monitor for symptoms: chest pain, palpitations, shortness of breath"] } := by
  simp [_analyze_heart_prediction, heartA, pyGetD, lookupVal, pyNeStr, pyMulQ, pyToNum,
    defaultEngine]
  norm_num

/-- Vital-sign analysis of `sensorA`: no fever, no hypothermia, no
movement, distance in range, so score 0 and no strings. -/
theorem sensorA_eval : _analyze_vital_signs defaultEngine sensorA =
    .ok { score := 0, factors := [], recommendations := [] } := by
  simp [_analyze_vital_signs, sensorA, pyGetD, lookupVal, pyTruthy, pyGeQ, pyLtQ, pyToNum,
    defaultEngine]
  norm_num

/-- Heart component of Scenario A is registered with score 0.72. -/
theorem heartCompA : heartComponent defaultEngine (some heartA) =
    .ok (some { score := 18/25
                factors := ["Abnormal heart sound detected"]
                recommendations :=
                  ["Cardiac evaluation by physician recommended",
                   "Consider ECG and echocardiography",
                   "Monitor for symptoms: chest pain, palpitations, shortness of breath"] }) := by
  have h1 : pyTruthy heartA = true := by simp [heartA, pyTruthy]
  have h2 : pyGetD heartA "success" .none = .ok (.bool true) := by
    simp [heartA, pyGetD, lookupVal]
  have h3 : pyTruthy (PyVal.bool true) = true := rfl
  simp [heartComponent, h1, h2, h3, heartA_eval]

/-- Vital component of Scenario A is registered with score 0. -/
theorem vitalCompA : vitalComponent defaultEngine (some sensorA) =
    .ok (some { score := 0, factors := [], recommendations := [] }) := by
  have h1 : pyTruthy sensorA = true := by simp [sensorA, pyTruthy]
  simp [vitalComponent, h1, sensorA_eval]

/-- Weighted fusion of Scenario A: (0.72·0.5 + 0·0.2)/(0.5 + 0.2). -/
theorem scenarioA_overall :
    _calculate_overall_risk defaultEngine [("heart_ml", 18/25), ("vital_signs", 0)] = 18/35 := by
  simp [_calculate_overall_risk, strContains, containsSubList, startsWithList, defaultEngine]
  norm_num

/-- Full evaluation of `make_decision` on the Scenario A inputs, for
any call time: heart component 0.72, vital component 0, overall
18/35 ≈ 0.514, hence MEDIUM, referral required, ROUTINE urgency. -/
theorem resultA_eval (now : String) :
    make_decision defaultEngine (some heartA) Option.none (some sensorA) Option.none now =
    Sum.inl { timestamp := now
              risk_level := "MEDIUM"
              risk_score := 18/35
              risk_scores_breakdown := [("heart_ml", 18/25), ("vital_signs", 0)]
              risk_factors := ["Abnormal heart sound detected"]
              recommendations :=
                ["Cardiac evaluation by physician recommended",
                 "Consider ECG and echocardiography",
                 "Monitor for symptoms: chest pain, palpitations, shortness of breath"]
              explanation := _generate_explanation "MEDIUM"
                [("heart_ml", 18/25), ("vital_signs", 0)] ["Abnormal heart sound detected"]
              requires_referral := true
              urgency := "ROUTINE"
              confidence := _calculate_decision_confidence
                [("heart_ml", 18/25), ("vital_signs", 0)] } := by
  simp only [make_decision, computeDecision, heartCompA, vitalCompA, lungComponent]
  simp only [scoreEntry, factorsOf, recommendationsOf, List.append_nil, List.nil_append,
    List.cons_append, List.singleton_append]
  rw [scenarioA_overall]
  have hlevel : _determine_risk_level (18/35) = "MEDIUM" := by
    simp [_determine_risk_level]
    norm_num
  rw [hlevel]
  simp [_determine_urgency, urgent_keywords, strContains, containsSubList, startsWithList,
    strToLower]

/-- Claim C1 counterexample: on the Scenario A inputs the code returns
overall risk score 18/35 ≈ 0.514 and risk level MEDIUM, not the claimed
0.72 and HIGH (the zero-score vital_signs component still contributes
its 0.2 weight to the normalization). -/
theorem C1_scenarioA_counterexample :
    decisionRiskScore (make_decision defaultEngine (some heartA) Option.none (some sensorA)
      Option.none "2024-01-01T00:00:00") = some (18/35) ∧
    decisionRiskLevel (make_decision defaultEngine (some heartA) Option.none (some sensorA)
      Option.none "2024-01-01T00:00:00") = "MEDIUM" ∧
    (18 : ℚ)/35 ≠ 18/25 ∧ "MEDIUM" ≠ "HIGH" := by
  rw [resultA_eval]
  exact ⟨rfl, rfl, by norm_num, by decide⟩

/-- Claim C1 (amended): on the Scenario A inputs `make_decision`
computes heart component 0.8 × 0.9 = 0.72, adds a vital_signs component
of score 0, fuses them to (0.72·0.5 + 0·0.2)/0.7 = 18/35 ≈ 0.514, and
returns risk_level MEDIUM, requires_referral true, urgency ROUTINE. -/
theorem C1_scenarioA_amended :
    decisionBreakdown (make_decision defaultEngine (some heartA) Option.none (some sensorA)
      Option.none "2024-01-01T00:00:00") = some [("heart_ml", 18/25), ("vital_signs", 0)] ∧
    decisionRiskScore (make_decision defaultEngine (some heartA) Option.none (some sensorA)
      Option.none "2024-01-01T00:00:00") = some (18/35) ∧
    decisionRiskLevel (make_decision defaultEngine (some heartA) Option.none (some sensorA)
      Option.none "2024-01-01T00:00:00") = "MEDIUM" ∧
    decisionRequiresReferral (make_decision defaultEngine (some heartA) Option.none (some sensorA)
      Option.none "2024-01-01T00:00:00") = true ∧
    decisionUrgency (make_decision defaultEngine (some heartA) Option.none (some sensorA)
      Option.none "2024-01-01T00:00:00") = some "ROUTINE" := by
  rw [resultA_eval]
  exact ⟨rfl, rfl, rfl, rfl, rfl⟩

/-! # State-machine lemmas for the claims -/

/-- Sensor snapshot with explicit distance validity/range, movement
flag and knob mode, as the guard reads them. -/
def snapshotOf (dvalid din_range mdetected : Bool) (mode : ℚ) : PyVal :=
  .dict [("distance", .dict [("valid", .bool dvalid), ("in_range", .bool din_range)]),
         ("movement", .dict [("detected", .bool mdetected)]),
         ("knob", .dict [("mode", .num mode)])]

/-- A machine in IDLE whose store holds the given sensor snapshot. -/
def idleMachineWith (snapshot : PyVal) : SystemStateMachine :=
  { current_state := .IDLE, previous_state := Option.none,
    state_data := [("latest_sensor_data", snapshot)],
    state_history := [], state_enter_time := 0 }

/-- A machine in IDLE with an empty shared store. -/
def idleEmptyMachine : SystemStateMachine :=
  { current_state := .IDLE, previous_state := Option.none,
    state_data := [], state_history := [], state_enter_time := 0 }

/-- A machine displaying results since clock value 0. -/
def showingMachine : SystemStateMachine :=
  { current_state := .SHOWING_RESULTS, previous_state := Option.none,
    state_data := [], state_history := [], state_enter_time := 0 }

/-- The IDLE→EXAMINING edge carries the examination guard and start
action. -/
theorem idleExamEdge : _find_transition SystemState.IDLE SystemState.EXAMINING =
    some { from_state := .IDLE, to_state := .EXAMINING,
           condition := some .can_start_examination,
           action := some .on_examination_start, timeout := Option.none } := by decide

/-- IDLE→EXAMINING is a declared edge. -/
theorem idleExamValid : _is_valid_transition SystemState.IDLE SystemState.EXAMINING = true := by
  decide

/-- The declared edges out of SHOWING_RESULTS, in source order: the
timeout edge to IDLE first, then ERROR and SHUTDOWN. -/
theorem showingEdges : transitionsFor SystemState.SHOWING_RESULTS =
    [{ from_state := .SHOWING_RESULTS, to_state := .IDLE, condition := Option.none,
       action := some .on_return_to_idle, timeout := some 10 },
     { from_state := .SHOWING_RESULTS, to_state := .ERROR, condition := Option.none,
       action := Option.none, timeout := Option.none },
     { from_state := .SHOWING_RESULTS, to_state := .SHUTDOWN, condition := Option.none,
       action := Option.none, timeout := Option.none }] := by decide

/-- SHOWING_RESULTS→IDLE is a declared edge. -/
theorem showingIdleValid :
    _is_valid_transition SystemState.SHOWING_RESULTS SystemState.IDLE = true := by decide

/-- The SHOWING_RESULTS→IDLE edge: unguarded, 10-second timeout,
return-to-idle action. -/
theorem showingIdleEdge : _find_transition SystemState.SHOWING_RESULTS SystemState.IDLE =
    some { from_state := .SHOWING_RESULTS, to_state := .IDLE, condition := Option.none,
           action := some .on_return_to_idle, timeout := some 10 } := by decide

/-- One call to `transition_to` appends at most one history record
(actions never touch the history). -/
theorem transition_history_le (m : SystemStateMachine) (t : SystemState)
    (c : Option PyVal) (now : ℚ) :
    (transition_to m t c now).2.1.state_history.length ≤ m.state_history.length + 1 := by
  unfold transition_to
  split
  · simp
  · rcases hf : _find_transition m.current_state t with _ | tr
    · simp [hf]
    · simp only [hf]
      split
      · simp
      · rcases ha : tr.action with _ | a
        · simp [ha]
        · rcases a <;>
            simp [ha, runAction, _on_examination_start, _on_results_ready, _on_return_to_idle,
              _on_error_recovery, set_data, clear_data]

/-- When the stored snapshot is missing, or is a dict whose movement
entry is missing or lacks a detected key, the examination guard never
evaluates to a successful `True`. -/
theorem canStartBlockedOnMissingData (m : SystemStateMachine)
    (h : lookupVal m.state_data "latest_sensor_data" = Option.none ∨
      ∃ entries, lookupVal m.state_data "latest_sensor_data" = some (.dict entries) ∧
        (lookupVal entries "movement" = Option.none ∨
         ∃ ment, lookupVal entries "movement" = some (.dict ment) ∧
           lookupVal ment "detected" = Option.none)) :
    _can_start_examination m ≠ Except.ok true := by
  unfold _can_start_examination get_data
  rcases h with h | ⟨entries, he, hmv⟩
  · simp [h, pyGetD, lookupVal, pyTruthy]
  · simp only [he, Option.getD_some]
    rcases hd : lookupVal entries "distance" with _ | dd
    · simp [hd, pyGetD, lookupVal, pyTruthy]
    · rcases dd with _ | b | q | s | dentries <;> simp only [hd, pyGetD, Option.getD_some] <;>
        try simp
      by_cases hvv : pyTruthy ((lookupVal dentries "valid").getD (PyVal.bool false)) = false
      · simp [hvv]
      · simp only [hvv, if_false]
        rcases hmv with hm | ⟨ment, hm, hdet⟩
        · simp [hm, lookupVal, pyTruthy]
        · simp [hm, hdet, lookupVal, pyTruthy]

/-- Claim C2 counterexample: a snapshot with `distance.valid = true`
but `distance.in_range = false` (no movement, mode 1) still lets
IDLE→EXAMINING succeed — the guard never reads `in_range`, so the
claimed "fails whenever distance.in_range is false" is violated. -/
theorem C2_guard_counterexample :
    (transition_to (idleMachineWith (snapshotOf true false false 1))
      SystemState.EXAMINING Option.none 5).1 = true := by rfl

/-- Claim C2 (amended): from IDLE with a snapshot of the given shape,
`transition_to(EXAMINING)` succeeds iff `distance.valid` is true,
`movement.detected` is false, and the knob mode lies in `0..2`; the
`distance.in_range` flag plays no role in the guard. -/
theorem C2_guard_amended (dvalid din_range mdetected : Bool) (mode : ℚ)
    (context : Option PyVal) (now : ℚ) :
    (transition_to (idleMachineWith (snapshotOf dvalid din_range mdetected mode))
        SystemState.EXAMINING context now).1 = true ↔
      (dvalid = true ∧ mdetected = false ∧ 0 ≤ mode ∧ mode ≤ 2) := by
  have hguard : _can_start_examination
      (idleMachineWith (snapshotOf dvalid din_range mdetected mode)) =
      .ok (dvalid && !mdetected && decide (0 ≤ mode) && decide (mode ≤ 2)) := by
    simp [_can_start_examination, idleMachineWith, snapshotOf, get_data, lookupVal,
      pyGetD, pyTruthy, pyLtQ, pyGtQ, pyToNum]
    rcases dvalid <;> rcases mdetected <;> simp <;> by_cases h0 : mode < 0 <;>
      by_cases h2 : 2 < mode <;> simp [h0, h2] <;> push_neg at h0 h2 <;> exact ⟨h0, h2⟩
  have hcur : (idleMachineWith (snapshotOf dvalid din_range mdetected mode)).current_state =
      SystemState.IDLE := rfl
  simp only [transition_to, hcur, idleExamValid, idleExamEdge, can_transition, evalCondition,
    hguard]
  rcases dvalid <;> rcases mdetected <;> by_cases h1 : (0:ℚ) ≤ mode <;>
    by_cases h2 : mode ≤ 2 <;> simp [h1, h2]

/-- Claim C3 counterexample: two `make_decision` calls on identical
(heart, lung, sensor, examination) inputs made at different wall-clock
instants return different `timestamp` fields, so not every field of
the decision dictionary is identical across repeated calls. -/
theorem C3_determinism_counterexample :
    decisionTimestamp (make_decision defaultEngine (some heartA) Option.none (some sensorA)
        Option.none "2024-01-01T00:00:00") ≠
      decisionTimestamp (make_decision defaultEngine (some heartA) Option.none (some sensorA)
        Option.none "2024-01-01T00:00:01") := by
  rw [resultA_eval, resultA_eval]
  simp [decisionTimestamp]

/-- Field-wise agreement of two `make_decision` outcomes on everything
except the `timestamp` field (the fallback dictionary carries no
timestamp, so it must agree entirely). -/
def agreeExceptTimestamp : Decision ⊕ ErrorDecision → Decision ⊕ ErrorDecision → Prop
  | .inl d1, .inl d2 =>
      d1.risk_level = d2.risk_level ∧ d1.risk_score = d2.risk_score ∧
      d1.risk_scores_breakdown = d2.risk_scores_breakdown ∧
      d1.risk_factors = d2.risk_factors ∧ d1.recommendations = d2.recommendations ∧
      d1.explanation = d2.explanation ∧ d1.requires_referral = d2.requires_referral ∧
      d1.urgency = d2.urgency ∧ d1.confidence = d2.confidence
  | .inr d1, .inr d2 => d1 = d2
  | _, _ => False

/-- Only the `timestamp` field of the computed decision depends on the
call time; every other field is a function of the inputs alone. -/
theorem computeDecision_timestamp (e : TriageDecisionEngine)
    (h l s x : Option PyVal) (n1 n2 : String) :
    computeDecision e h l s x n1 =
      Except.map (fun d => { d with timestamp := n1 }) (computeDecision e h l s x n2) := by
  unfold computeDecision
  cases hh : heartComponent e h <;> simp only [hh, Except.map]
  cases hl : lungComponent e l <;> simp only [hl, Except.map]
  cases hv : vitalComponent e s <;> simp only [hv, Except.map]

/-- Claim C3 (amended): two `make_decision` calls on identical
(heart, lung, sensor, examination) inputs agree on every field of the
returned dictionary except `timestamp`, which records the call time;
in particular calls at the same clock reading are fully identical. -/
theorem C3_determinism_amended (e : TriageDecisionEngine) (h l s x : Option PyVal)
    (n1 n2 : String) :
    agreeExceptTimestamp (make_decision e h l s x n1) (make_decision e h l s x n2) := by
  unfold make_decision
  rw [computeDecision_timestamp e h l s x n1 n2]
  cases hC : computeDecision e h l s x n2 <;> simp [hC, Except.map, agreeExceptTimestamp]

/-- Claim C4: when the requested edge is absent from the declared
graph, or present but with a guard that evaluates false, `transition_to`
returns false and performs no mutation at all — the machine (state,
previous state, history, shared store, clock) is returned unchanged and
no callback or action runs. -/
theorem C4_transition_failure_no_mutation (m : SystemStateMachine) (target : SystemState)
    (context : Option PyVal) (now : ℚ)
    (h : _is_valid_transition m.current_state target = false ∨
      ∃ tr, _find_transition m.current_state target = some tr ∧ can_transition tr m = false) :
    transition_to m target context now = (false, m, []) := by
  rcases h with h | ⟨tr, hfind, hcan⟩
  · simp [transition_to, h]
  · simp only [transition_to]
    rcases hv : _is_valid_transition m.current_state target with _ | _
    · simp
    · simp [hfind, hcan]

/-- Claim C4 witness: INITIALIZING→EXAMINING is not a declared edge,
and the freshly initialized machine rejects it without mutation. -/
theorem C4_witness :
    _is_valid_transition (initialMachine 0).current_state SystemState.EXAMINING = false ∧
    transition_to (initialMachine 0) SystemState.EXAMINING Option.none 1 =
      (false, initialMachine 0, []) :=
  ⟨by decide, C4_transition_failure_no_mutation (initialMachine 0) SystemState.EXAMINING
    Option.none 1 (Or.inl (by decide))⟩

/-- Claim C5: when an exception escapes the decision computation,
`make_decision` returns (rather than propagates) the fallback
dictionary with risk_level UNKNOWN and requires_referral true. -/
theorem C5_exception_fallback (e : TriageDecisionEngine) (h l s x : Option PyVal)
    (now msg : String) (hc : computeDecision e h l s x now = .error msg) :
    make_decision e h l s x now =
      Sum.inr { error := msg, risk_level := "UNKNOWN", requires_referral := true } := by
  unfold make_decision
  rw [hc]

/-- Claim C5 witness: a heart result whose confidence is the string
"high" makes `0.8 * confidence` raise TypeError, and the call returns
the UNKNOWN/referral fallback. -/
theorem C5_witness :
    computeDecision defaultEngine (some heartBad) Option.none Option.none Option.none
      "2024-01-01T00:00:00" = .error "TypeError" ∧
    make_decision defaultEngine (some heartBad) Option.none Option.none Option.none
      "2024-01-01T00:00:00" =
      Sum.inr { error := "TypeError", risk_level := "UNKNOWN", requires_referral := true } :=
  ⟨rfl, C5_exception_fallback defaultEngine (some heartBad) Option.none Option.none Option.none
    "2024-01-01T00:00:00" "TypeError" rfl⟩

/-- Claim C6: every `process()` call performs at most one automatic
transition (at most one history record is appended), and from
SHOWING_RESULTS with at least 10 seconds elapsed in state a single
`process()` call moves the machine to IDLE with no external
`transition_to` call. -/
theorem C6_auto_timeout (m : SystemStateMachine) (now : ℚ) :
    (process m now).1.state_history.length ≤ m.state_history.length + 1 ∧
    (m.current_state = SystemState.SHOWING_RESULTS → now - m.state_enter_time ≥ 10 →
      (process m now).1.current_state = SystemState.IDLE) := by
  constructor
  · simp only [process]
    split
    · exact transition_history_le _ _ _ _
    · simp
  · intro hcur helapsed
    have htrans : (transition_to m SystemState.IDLE Option.none now).2.1.current_state =
        SystemState.IDLE := by
      simp [transition_to, hcur, showingIdleValid, showingIdleEdge, can_transition,
        runAction, _on_return_to_idle, clear_data]
    simp only [process, hcur, showingEdges, List.find?]
    norm_num [helapsed, can_transition]
    exact htrans

/-- Claim C6 witness: a machine showing results since clock 0, when
processed at clock 10, lands in IDLE. -/
theorem C6_witness :
    showingMachine.current_state = SystemState.SHOWING_RESULTS ∧
    (10 : ℚ) - showingMachine.state_enter_time ≥ 10 ∧
    (process showingMachine 10).1.current_state = SystemState.IDLE :=
  ⟨rfl, by simp [showingMachine],
   (C6_auto_timeout showingMachine 10).2 rfl (by simp [showingMachine])⟩

/-- Claim C7: with zero components present the fused score is 0, and
with only the `lung_ml` component present the default-weight fusion
returns exactly the lung component score (weights normalize to 1). -/
theorem C7_weight_normalization :
    (∀ e : TriageDecisionEngine, _calculate_overall_risk e [] = 0) ∧
    ∀ s : ℚ, _calculate_overall_risk defaultEngine [("lung_ml", s)] = s := by
  constructor
  · intro e
    rfl
  · intro s
    simp [_calculate_overall_risk, strContains, containsSubList, startsWithList, defaultEngine]

/-- Claim C8: calling `stop_examination` with the state machine in
IDLE returns `{'success': True}` and leaves the machine unchanged in
IDLE (the internal `transition_to(IDLE)` fails silently: IDLE→IDLE is
not a declared edge, and its return value is ignored). -/
theorem C8_idempotent_stop (m : SystemStateMachine) (now : ℚ)
    (h : m.current_state = SystemState.IDLE) :
    (stop_examination m now).1.success = true ∧ (stop_examination m now).2.1 = m ∧
      (stop_examination m now).2.1.current_state = SystemState.IDLE := by
  have hvalid : _is_valid_transition SystemState.IDLE SystemState.IDLE = false := by decide
  refine ⟨rfl, ?_, ?_⟩ <;> simp [stop_examination, transition_to, h, hvalid]

/-- Claim C8 witness: stopping with an idle machine and empty store
succeeds and stays in IDLE. -/
theorem C8_witness :
    idleEmptyMachine.current_state = SystemState.IDLE ∧
    (stop_examination idleEmptyMachine 5).1.success = true ∧
    (stop_examination idleEmptyMachine 5).2.1.current_state = SystemState.IDLE :=
  ⟨rfl, (C8_idempotent_stop idleEmptyMachine 5 rfl).1,
   (C8_idempotent_stop idleEmptyMachine 5 rfl).2.2⟩

/-- Claim C9: with no stored snapshot, or a snapshot lacking a movement
dict, or a movement dict lacking the detected key, the examination
guard never passes (missing movement data defaults to detected for
safety) and IDLE→EXAMINING is rejected. -/
theorem C9_missing_sensor_data_safe (m : SystemStateMachine) (context : Option PyVal) (now : ℚ)
    (hidle : m.current_state = SystemState.IDLE)
    (h : lookupVal m.state_data "latest_sensor_data" = Option.none ∨
      ∃ entries, lookupVal m.state_data "latest_sensor_data" = some (.dict entries) ∧
        (lookupVal entries "movement" = Option.none ∨
         ∃ ment, lookupVal entries "movement" = some (.dict ment) ∧
           lookupVal ment "detected" = Option.none)) :
    _can_start_examination m ≠ Except.ok true ∧
    (transition_to m SystemState.EXAMINING context now).1 = false := by
  have hguard := canStartBlockedOnMissingData m h
  refine ⟨hguard, ?_⟩
  have hcan : can_transition
      { from_state := .IDLE, to_state := .EXAMINING,
        condition := some .can_start_examination,
        action := some .on_examination_start, timeout := Option.none } m = false := by
    simp only [can_transition, evalCondition]
    rcases hge : _can_start_examination m with _ | b
    · rfl
    · rcases b
      · rfl
      · exact absurd hge hguard
  simp [transition_to, hidle, idleExamValid, idleExamEdge, hcan]

/-- Claim C9 witness: an idle machine with an empty store (no
`latest_sensor_data` at all) cannot start an examination. -/
theorem C9_witness :
    idleEmptyMachine.current_state = SystemState.IDLE ∧
    lookupVal idleEmptyMachine.state_data "latest_sensor_data" = Option.none ∧
    (_can_start_examination idleEmptyMachine ≠ Except.ok true ∧
      (transition_to idleEmptyMachine SystemState.EXAMINING Option.none 7).1 = false) :=
  ⟨rfl, rfl,
   C9_missing_sensor_data_safe idleEmptyMachine Option.none 7 rfl (Or.inl rfl)⟩

/-- Claim C10: `force_state` swaps in the target state, records the
old state as previous, resets the state-entry clock, appends exactly
one forced history record carrying the reason, performs no other
mutation (the shared store is untouched) and runs no exit callback,
enter callback or transition action. -/
theorem C10_force_state_frame (m : SystemStateMachine) (s : SystemState)
    (reason : String) (now : ℚ) :
    (force_state m s reason now).1.current_state = s ∧
    (force_state m s reason now).1.previous_state = some m.current_state ∧
    (force_state m s reason now).1.state_enter_time = now ∧
    (force_state m s reason now).1.state_data = m.state_data ∧
    (force_state m s reason now).1.state_history = m.state_history ++
      [{ from_state := m.current_state, to_state := s, timestamp := now,
         context := Option.none, forced := true, reason := some reason }] ∧
    (force_state m s reason now).2 = [] :=
  ⟨rfl, rfl, rfl, rfl, rfl, rfl⟩
